import Mathlib

/-!
Shallow embedding of the tenant-scoped session core of the accesswash-web
repository: the per-tenant ApiClient (lib/utils/api-client.ts), the zustand
auth store (lib/stores/auth-store.ts), the Next.js middleware
(middleware.ts) and the useTenant hook.

Cookies are modelled as an association list from cookie names to values.
A cookie value is modelled up to JSON semantics: the constructor
CookieVal.customerJson c stands for the string JSON.stringify(c) for a
customer object c, and CookieVal.str s stands for any string that does not
parse as a customer object (JSON.parse of it throws, or yields a
non-object).  The js-cookie library is a no-op and reads undefined when no
document is available, which the model captures with the Ctx.hasWindow
flag.  Network outcomes are passed in explicitly: NetOutcome.ok body is a
2xx axios response with the given parsed body, NetOutcome.err status msg
is a rejected request, status none standing for a transport failure or the
10-second timeout (error.response is undefined) and msg for the optional
error.response.data.message field.
-/

namespace AccessWash

/-- Execution context of the client: whether a browser window/document is
available (typeof window !== 'undefined'). -/
structure Ctx where
  hasWindow : Bool
deriving DecidableEq, Repr

/-- Customer record, mirroring the Customer interface of api-client.ts. -/
structure Customer where
  id : String
  email : String
  phone_number : Option String
  first_name : String
  last_name : String
  full_name : String
  account_number : String
  meter_number : Option String
  property_address : String
  service_type : String
  language : String
  email_verified : Bool
  phone_verified : Bool
  last_login : Option String
  created_at : String
deriving DecidableEq, Repr

/-- ServiceRequest record, mirroring the ServiceRequest interface of
api-client.ts. -/
structure ServiceRequest where
  id : String
  request_number : String
  title : String
  description : String
  issue_type : String
  urgency : String
  status : String
  reported_location : String
  customer : String
  assigned_to : Option String
  created_at : String
  updated_at : String
deriving DecidableEq, Repr

/-- Cookie value, modelled up to JSON semantics: customerJson c is
JSON.stringify of the customer object c; str s is any other string. -/
inductive CookieVal where
  | str (s : String)
  | customerJson (c : Customer)
deriving DecidableEq, Repr

/-- JavaScript truthiness of a cookie value: the empty string is falsy,
every other string (in particular any JSON.stringify of an object) is
truthy. -/
def CookieVal.truthy : CookieVal → Bool
  | .str s => !(s == "")
  | .customerJson _ => true

/-- JSON.parse of a cookie value as a Customer: succeeds exactly on
serialized customer objects, and the try/catch in the source turns a parse
failure into null. -/
def CookieVal.parseCustomer : CookieVal → Option Customer
  | .str _ => none
  | .customerJson c => some c

/-- The cookie jar of the browser: an association list from cookie names
to values, most recent write first. -/
abbrev CookieStore := List (String × CookieVal)

/-- Raw lookup in the cookie jar (first binding wins). -/
def rawGet (st : CookieStore) (k : String) : Option CookieVal :=
  (st.find? (fun p => p.1 == k)).map (fun p => p.2)

/-- Raw write to the cookie jar: replaces any previous binding of the
name. -/
def rawSet (st : CookieStore) (k : String) (v : CookieVal) : CookieStore :=
  (k, v) :: st.filter (fun p => !(p.1 == k))

/-- Raw deletion from the cookie jar. -/
def rawRemove (st : CookieStore) (k : String) : CookieStore :=
  st.filter (fun p => !(p.1 == k))

/-- Cookies.get of js-cookie: reads undefined when no document is
available. -/
def cookiesGet (ctx : Ctx) (st : CookieStore) (k : String) : Option CookieVal :=
  if ctx.hasWindow then rawGet st k else none

/-- Cookies.set of js-cookie: a no-op when no document is available. -/
def cookiesSet (ctx : Ctx) (st : CookieStore) (k : String) (v : CookieVal) : CookieStore :=
  if ctx.hasWindow then rawSet st k v else st

/-- Cookies.remove of js-cookie: a no-op when no document is available. -/
def cookiesRemove (ctx : Ctx) (st : CookieStore) (k : String) : CookieStore :=
  if ctx.hasWindow then rawRemove st k else st

/-- Name of the token cookie of a tenant. -/
def tokenKey (tenant : String) : String :=
  "accesswash_token_" ++ tenant

/-- Name of the cached-customer cookie of a tenant. -/
def customerKey (tenant : String) : String :=
  "accesswash_customer_" ++ tenant

/-- ApiClient.getAuthToken: null outside the browser, else the token
cookie of the tenant (the raw cookie value; the source returns the cookie
string). -/
def getAuthToken (ctx : Ctx) (tenant : String) (st : CookieStore) : Option CookieVal :=
  if !ctx.hasWindow then none
  else cookiesGet ctx st (tokenKey tenant)

/-- ApiClient.setAuthToken: writes the token cookie of the tenant, a no-op
outside the browser. -/
def setAuthToken (ctx : Ctx) (tenant : String) (token : String) (st : CookieStore) : CookieStore :=
  if !ctx.hasWindow then st
  else cookiesSet ctx st (tokenKey tenant) (.str token)

/-- ApiClient.clearAuthData: removes the token cookie and the customer
cookie of the tenant, a no-op outside the browser. -/
def clearAuthData (ctx : Ctx) (tenant : String) (st : CookieStore) : CookieStore :=
  if !ctx.hasWindow then st
  else cookiesRemove ctx (cookiesRemove ctx st (tokenKey tenant)) (customerKey tenant)

/-- ApiClient.getCurrentCustomer: null outside the browser; else reads the
customer cookie, returns null when it is absent or falsy, and otherwise
JSON.parses it with a try/catch that degrades to null. -/
def getCurrentCustomer (ctx : Ctx) (tenant : String) (st : CookieStore) : Option Customer :=
  if !ctx.hasWindow then none
  else
    match cookiesGet ctx st (customerKey tenant) with
    | none => none
    | some v => if !v.truthy then none else v.parseCustomer

/-- JavaScript truthiness of the result of getAuthToken, as used by the
double negation in isAuthenticated. -/
def tokenTruthy : Option CookieVal → Bool
  | none => false
  | some v => v.truthy

/-- ApiClient.isAuthenticated: double-negation of getAuthToken and of
getCurrentCustomer. -/
def isAuthenticated (ctx : Ctx) (tenant : String) (st : CookieStore) : Bool :=
  tokenTruthy (getAuthToken ctx tenant st) && (getCurrentCustomer ctx tenant st).isSome

/-- Normalized error thrown by the ApiClient operations: new Error with a
message string. -/
structure ApiError where
  message : String
deriving DecidableEq, Repr

/-- Outcome of one network request as seen by the client. ok body is a
fulfilled axios promise carrying the parsed body; err status msg is a
rejected one, status none standing for a transport failure or timeout
(error.response is undefined) and msg for error.response.data.message. -/
inductive NetOutcome (β : Type) where
  | ok (body : β)
  | err (status : Option Nat) (msg : Option String)
deriving DecidableEq, Repr

/-- The login page URL of a tenant, the target of the forced navigation in
the 401 interceptor. -/
def loginUrl (tenant : String) : String :=
  "/" ++ tenant ++ "/portal/auth/login"

/-- Error branch of the response interceptor: on status 401 it clears the
auth data of the tenant and, in the browser, navigates to the login page
of the tenant; every other rejected response passes through untouched.
Returns the cookie jar and the list of forced navigations. -/
def interceptError (ctx : Ctx) (tenant : String) (status : Option Nat) (st : CookieStore) :
    CookieStore × List String :=
  if status = some 401 then
    (clearAuthData ctx tenant st, if ctx.hasWindow then [loginUrl tenant] else [])
  else (st, [])

/-- Result of running one ApiClient operation: the cookie jar afterwards,
the forced navigations, and the returned value or the normalized thrown
error. -/
structure OpResult (α : Type) where
  store : CookieStore
  navs : List String
  result : Except ApiError α
deriving Repr

/-- JavaScript truthy-or on an optional message string, as in
error.response?.data?.message || default: an absent or empty (falsy)
message yields the default, any other string wins. -/
def jsOrStr (m : Option String) (d : String) : String :=
  match m with
  | some s => if s == "" then d else s
  | none => d

/-- Shared error path of every operation: the response interceptor runs
first, then the catch clause throws new Error with the truthy backend
message when present and the fixed default string of the operation
otherwise (truthy-or). -/
def failWith {α : Type} (ctx : Ctx) (tenant : String) (defaultMsg : String)
    (status : Option Nat) (msg : Option String) (st : CookieStore) : OpResult α :=
  let r := interceptError ctx tenant status st
  ⟨r.1, r.2, .error ⟨jsOrStr msg defaultMsg⟩⟩

/-- Shared shape of the operations with no success-path side effect:
return the body on fulfilment, normalize the error otherwise. -/
def runPlain {β : Type} (ctx : Ctx) (tenant : String) (defaultMsg : String)
    (st : CookieStore) : NetOutcome β → OpResult β
  | .ok body => ⟨st, [], .ok body⟩
  | .err status msg => failWith ctx tenant defaultMsg status msg st

/-- Tokens object of the auth responses: the code only reads
access_token. -/
structure Tokens where
  access_token : String
deriving DecidableEq, Repr

/-- Payload of the documented auth response envelope: data holds the
customer and the tokens. -/
structure AuthPayload where
  customer : Customer
  tokens : Tokens
deriving DecidableEq, Repr

/-- Body of the login/register responses as the code accesses it: the
documented envelope fields success, data, message, plus the top-level
tokens and customer fields that the persistence branch of login/register
reads (absent, i.e. none, when the backend follows the documented
envelope). -/
structure AuthBody where
  success : Bool
  data : Option AuthPayload
  message : Option String
  tokens : Option Tokens
  customer : Option Customer
deriving DecidableEq, Repr

/-- Documented response envelope with payload type τ. -/
structure ApiResp (τ : Type) where
  success : Bool
  data : Option τ
  message : Option String
deriving DecidableEq, Repr

/-- JSON.stringify applied to a possibly-undefined customer, as stored by
the cookie writes: an object serializes to its JSON, while stringify of
undefined makes js-cookie store the text "undefined". -/
def stringifyOptCustomer : Option Customer → CookieVal
  | some c => .customerJson c
  | none => .str "undefined"

/-- ApiClient.login: on a fulfilled response, persists the token and the
customer snapshot only when body.success and the top-level body.tokens are
both truthy; on rejection, normalizes to Login failed. -/
def login (ctx : Ctx) (tenant : String) (st : CookieStore)
    (o : NetOutcome AuthBody) : OpResult AuthBody :=
  match o with
  | .ok body =>
      match body.tokens, body.success with
      | some tk, true =>
          let st2 := setAuthToken ctx tenant tk.access_token st
          let st3 := cookiesSet ctx st2 (customerKey tenant) (stringifyOptCustomer body.customer)
          ⟨st3, [], .ok body⟩
      | _, _ => ⟨st, [], .ok body⟩
  | .err status msg => failWith ctx tenant "Login failed" status msg st

/-- ApiClient.register: same persistence contract as login, default
message Registration failed. -/
def registerOp (ctx : Ctx) (tenant : String) (st : CookieStore)
    (o : NetOutcome AuthBody) : OpResult AuthBody :=
  match o with
  | .ok body =>
      match body.tokens, body.success with
      | some tk, true =>
          let st2 := setAuthToken ctx tenant tk.access_token st
          let st3 := cookiesSet ctx st2 (customerKey tenant) (stringifyOptCustomer body.customer)
          ⟨st3, [], .ok body⟩
      | _, _ => ⟨st, [], .ok body⟩
  | .err status msg => failWith ctx tenant "Registration failed" status msg st

/-- ApiClient.logout: best-effort server call whose failure is swallowed,
followed unconditionally (finally) by clearAuthData; never throws. -/
def logoutApi (ctx : Ctx) (tenant : String) (st : CookieStore)
    (o : NetOutcome Unit) : CookieStore × List String :=
  match o with
  | .ok _ => (clearAuthData ctx tenant st, [])
  | .err status _ =>
      let r := interceptError ctx tenant status st
      (clearAuthData ctx tenant r.1, r.2)

/-- ApiClient.forgotPassword, default message Failed to send reset
email. -/
def forgotPassword {β : Type} (ctx : Ctx) (tenant : String) (st : CookieStore)
    (o : NetOutcome β) : OpResult β :=
  runPlain ctx tenant "Failed to send reset email" st o

/-- ApiClient.getDashboard, default message Failed to load dashboard. -/
def getDashboard {β : Type} (ctx : Ctx) (tenant : String) (st : CookieStore)
    (o : NetOutcome β) : OpResult β :=
  runPlain ctx tenant "Failed to load dashboard" st o

/-- ApiClient.getProfile, default message Failed to load profile. -/
def getProfile (ctx : Ctx) (tenant : String) (st : CookieStore)
    (o : NetOutcome (ApiResp Customer)) : OpResult (ApiResp Customer) :=
  runPlain ctx tenant "Failed to load profile" st o

/-- ApiClient.updateProfile: on a fulfilled response whose body reports
success, overwrites the customer cookie of the tenant with
JSON.stringify(body.data); otherwise leaves the jar alone; rejections
normalize to Failed to update profile. -/
def updateProfile (ctx : Ctx) (tenant : String) (st : CookieStore)
    (o : NetOutcome (ApiResp Customer)) : OpResult (ApiResp Customer) :=
  match o with
  | .ok body =>
      if body.success then
        ⟨cookiesSet ctx st (customerKey tenant) (stringifyOptCustomer body.data), [], .ok body⟩
      else ⟨st, [], .ok body⟩
  | .err status msg => failWith ctx tenant "Failed to update profile" status msg st

/-- Body of the service-request list response: either a paginated object
whose results field is an array, or a plain array (the source returns
response.data.results || response.data). -/
inductive SRListBody where
  | paginated (results : List ServiceRequest)
  | plain (xs : List ServiceRequest)
deriving DecidableEq, Repr

/-- ApiClient.getServiceRequests: unwraps results when present, default
message Failed to load service requests. -/
def getServiceRequests (ctx : Ctx) (tenant : String) (st : CookieStore)
    (o : NetOutcome SRListBody) : OpResult (List ServiceRequest) :=
  match o with
  | .ok (.paginated rs) => ⟨st, [], .ok rs⟩
  | .ok (.plain rs) => ⟨st, [], .ok rs⟩
  | .err status msg => failWith ctx tenant "Failed to load service requests" status msg st

/-- ApiClient.getServiceRequest, default message Failed to load service
request. -/
def getServiceRequest (ctx : Ctx) (tenant : String) (_id : String) (st : CookieStore)
    (o : NetOutcome ServiceRequest) : OpResult ServiceRequest :=
  runPlain ctx tenant "Failed to load service request" st o

/-- ApiClient.createServiceRequest, default message Failed to create
service request. -/
def createServiceRequest {β : Type} (ctx : Ctx) (tenant : String) (st : CookieStore)
    (o : NetOutcome (ApiResp β)) : OpResult (ApiResp β) :=
  runPlain ctx tenant "Failed to create service request" st o

/-- ApiClient.addComment, default message Failed to add comment. -/
def addComment {β : Type} (ctx : Ctx) (tenant : String) (_requestId _comment : String)
    (st : CookieStore) (o : NetOutcome β) : OpResult β :=
  runPlain ctx tenant "Failed to add comment" st o

/-- In-memory reactive auth state of the zustand store (auth-store.ts):
customer, loading, error, isAuthenticated. -/
structure AuthState where
  customer : Option Customer
  loading : Bool
  error : Option String
  isAuthenticated : Bool
deriving DecidableEq, Repr

/-- Initial state of the store. -/
def initialAuthState : AuthState :=
  { customer := none, loading := false, error := none, isAuthenticated := false }

/-- Result of one store action: final state, cookie jar, forced
navigations, and the rethrown error when the action rethrows. -/
structure StoreResult where
  state : AuthState
  store : CookieStore
  navs : List String
  thrown : Option ApiError
deriving Repr

/-- Message of the runtime TypeError raised by the non-null assertion
access response.data!.customer when the envelope data field is absent. -/
def undefinedCustomerRead : String :=
  "Cannot read properties of undefined (reading 'customer')"

/-- State written by the catch branch of the login/register store actions:
error set, loading false, unauthenticated, customer dropped. -/
def failedAuthState (s : AuthState) (m : String) : AuthState :=
  { s with error := some m, loading := false, isAuthenticated := false, customer := none }

/-- State written by the success branch of the login/register store
actions. -/
def loggedInState (s : AuthState) (c : Customer) : AuthState :=
  { s with customer := some c, isAuthenticated := true, loading := false }

/-- useAuthStore.login: sets loading and clears error, runs
ApiClient.login, on an envelope with success caches data.customer, on
success false throws Error(message or Login failed), and the catch sets
error/loading/isAuthenticated/customer and rethrows. -/
def storeLogin (ctx : Ctx) (tenant : String) (s : AuthState) (cs : CookieStore)
    (o : NetOutcome AuthBody) : StoreResult :=
  let s1 : AuthState := { s with loading := true, error := none }
  match login ctx tenant cs o with
  | ⟨cs2, navs, .ok body⟩ =>
      if body.success then
        match body.data with
        | some d => ⟨loggedInState s1 d.customer, cs2, navs, none⟩
        | none =>
            let e : ApiError := ⟨undefinedCustomerRead⟩
            ⟨failedAuthState s1 e.message, cs2, navs, some e⟩
      else
        let e : ApiError := ⟨jsOrStr body.message "Login failed"⟩
        ⟨failedAuthState s1 e.message, cs2, navs, some e⟩
  | ⟨cs2, navs, .error e⟩ => ⟨failedAuthState s1 e.message, cs2, navs, some e⟩

/-- useAuthStore.register: same shape as storeLogin with the Registration
failed default. -/
def storeRegister (ctx : Ctx) (tenant : String) (s : AuthState) (cs : CookieStore)
    (o : NetOutcome AuthBody) : StoreResult :=
  let s1 : AuthState := { s with loading := true, error := none }
  match registerOp ctx tenant cs o with
  | ⟨cs2, navs, .ok body⟩ =>
      if body.success then
        match body.data with
        | some d => ⟨loggedInState s1 d.customer, cs2, navs, none⟩
        | none =>
            let e : ApiError := ⟨undefinedCustomerRead⟩
            ⟨failedAuthState s1 e.message, cs2, navs, some e⟩
      else
        let e : ApiError := ⟨jsOrStr body.message "Registration failed"⟩
        ⟨failedAuthState s1 e.message, cs2, navs, some e⟩
  | ⟨cs2, navs, .error e⟩ => ⟨failedAuthState s1 e.message, cs2, navs, some e⟩

/-- useAuthStore.logout: sets loading, runs ApiClient.logout (which never
throws), and in the finally block resets to unauthenticated with no
error. -/
def storeLogout (ctx : Ctx) (tenant : String) (s : AuthState) (cs : CookieStore)
    (o : NetOutcome Unit) : AuthState × CookieStore × List String :=
  let s1 : AuthState := { s with loading := true }
  let r := logoutApi ctx tenant cs o
  let s2 : AuthState :=
    { s1 with customer := none, isAuthenticated := false, loading := false, error := none }
  (s2, r.1, r.2)

/-- useAuthStore.forgotPassword: sets loading and clears error, runs
ApiClient.forgotPassword ignoring its body, and on a thrown error sets
only error and loading before rethrowing. -/
def storeForgotPassword {β : Type} (ctx : Ctx) (tenant : String) (s : AuthState)
    (cs : CookieStore) (o : NetOutcome β) : StoreResult :=
  let s1 : AuthState := { s with loading := true, error := none }
  match forgotPassword ctx tenant cs o with
  | ⟨cs2, navs, .ok _⟩ => ⟨{ s1 with loading := false }, cs2, navs, none⟩
  | ⟨cs2, navs, .error e⟩ =>
      ⟨{ s1 with error := some e.message, loading := false }, cs2, navs, some e⟩

/-- useAuthStore.loadCustomerFromStorage: synchronous read of the cached
session; the partial set leaves error untouched. -/
def storeLoadFromStorage (ctx : Ctx) (tenant : String) (s : AuthState)
    (cs : CookieStore) : AuthState :=
  { s with
      customer := getCurrentCustomer ctx tenant cs
      isAuthenticated := isAuthenticated ctx tenant cs
      loading := false }

/-- useAuthStore.clearError. -/
def storeClearError (s : AuthState) : AuthState :=
  { s with error := none }

/-- JavaScript String.prototype.split on a single-character separator,
over the character list of the string. -/
def splitOnChar (c : Char) : List Char → List (List Char)
  | [] => [[]]
  | x :: xs =>
      if x = c then [] :: splitOnChar c xs
      else
        match splitOnChar c xs with
        | [] => [[x]]
        | h :: t => (x :: h) :: t

/-- JavaScript s.split(sep) for a one-character separator. -/
def jsSplit (sep : Char) (s : String) : List String :=
  (splitOnChar sep s.data).map List.asString

/-- JavaScript s.includes(pat), over character lists. -/
def hasSub (pat : List Char) : List Char → Bool
  | [] => pat.isEmpty
  | x :: xs => pat.isPrefixOf (x :: xs) || hasSub pat xs

/-- JavaScript s.includes(pat). -/
def jsIncludes (s pat : String) : Bool :=
  hasSub pat.data s.data

/-- middleware.ts: extracts the tenant from the host header, defaulting to
demo; on the platform domain the tenant is the text before the first dot;
on a local-development host it is the first path segment when that segment
is nonempty and not api. -/
def middlewareTenant (host : String) (pathname : String) : String :=
  if jsIncludes host "accesswash.org" then
    (jsSplit '.' host).headD ""
  else if jsIncludes host "localhost" || jsIncludes host "127.0.0.1" then
    let s1 := (jsSplit '/' pathname).getD 1 ""
    if s1 ≠ "" ∧ s1 ≠ "api" then s1 else "demo"
  else "demo"

/-- Fallback tenant of the useTenant hook: the first path segment, or demo
when it is empty or absent. -/
def pathFallbackTenant (pathname : String) : String :=
  let s := (jsSplit '/' pathname).getD 1 ""
  if s = "" then "demo" else s

/-- use-tenant.ts useTenant: prefers a truthy route parameter named
tenant, else falls back to the first path segment, else demo. -/
def useTenant (paramTenant : Option String) (pathname : String) : String :=
  match paramTenant with
  | some t => if t = "" then pathFallbackTenant pathname else t
  | none => pathFallbackTenant pathname

/-- Concrete customer used by the concrete counterexamples and
witnesses. -/
def sampleCustomer : Customer :=
  ⟨"c1", "ada@example.org", none, "Ada", "Lovelace", "Ada Lovelace", "ACC-001", none,
    "1 Main St", "water", "en", true, false, none, "2024-01-01"⟩

/-! Helper lemmas about the cookie jar and the tenant-scoped keys. -/

theorem rawGet_cons (p : String × CookieVal) (t : CookieStore) (k : String) :
    rawGet (p :: t) k = if p.1 = k then some p.2 else rawGet t k := by
  by_cases hp : p.1 = k
  · have hb : (p.1 == k) = true := beq_iff_eq.mpr hp
    simp [rawGet, List.find?_cons_of_pos _ hb, hp]
  · have hb : (p.1 == k) = false := beq_eq_false_iff_ne.mpr hp
    simp [rawGet, List.find?_cons, hb, hp]

theorem rawGet_filter_ne (st : CookieStore) (k k' : String) (h : k' ≠ k) :
    rawGet (st.filter (fun p => !(p.1 == k))) k' = rawGet st k' := by
  induction st with
  | nil => rfl
  | cons p t ih =>
    by_cases hp : p.1 = k
    · have hb : (p.1 == k) = true := beq_iff_eq.mpr hp
      have hne : p.1 ≠ k' := by rw [hp]; exact fun e => h e.symm
      simp [List.filter_cons, hb, rawGet_cons, hne, ih]
    · have hb : (p.1 == k) = false := beq_eq_false_iff_ne.mpr hp
      by_cases hq : p.1 = k'
      · simp [List.filter_cons, hq, h, rawGet_cons]
      · simp [List.filter_cons, hb, rawGet_cons, hq, ih]

theorem rawGet_filter_self (st : CookieStore) (k : String) :
    rawGet (st.filter (fun p => !(p.1 == k))) k = none := by
  induction st with
  | nil => rfl
  | cons p t ih =>
    by_cases hp : p.1 = k
    · have hb : (p.1 == k) = true := beq_iff_eq.mpr hp
      simp [List.filter_cons, hb, ih]
    · have hb : (p.1 == k) = false := beq_eq_false_iff_ne.mpr hp
      simp [List.filter_cons, hb, rawGet_cons, hp, ih]

theorem rawGet_rawSet_self (st : CookieStore) (k : String) (v : CookieVal) :
    rawGet (rawSet st k v) k = some v := by
  simp [rawSet, rawGet_cons]

theorem rawGet_rawSet_ne (st : CookieStore) (k k' : String) (v : CookieVal) (h : k' ≠ k) :
    rawGet (rawSet st k v) k' = rawGet st k' := by
  have hne : k ≠ k' := fun e => h e.symm
  simp [rawSet, rawGet_cons, hne, rawGet_filter_ne st k k' h]

theorem rawGet_rawRemove_self (st : CookieStore) (k : String) :
    rawGet (rawRemove st k) k = none :=
  rawGet_filter_self st k

theorem rawGet_rawRemove_ne (st : CookieStore) (k k' : String) (h : k' ≠ k) :
    rawGet (rawRemove st k) k' = rawGet st k' :=
  rawGet_filter_ne st k k' h

theorem append_left_cancel_str (p s t : String) (h : p ++ s = p ++ t) : s = t := by
  apply String.ext
  have h2 := congrArg String.data h
  rw [String.data_append, String.data_append] at h2
  exact List.append_cancel_left h2

theorem tokenKey_inj {t1 t2 : String} (h : tokenKey t1 = tokenKey t2) : t1 = t2 :=
  append_left_cancel_str _ _ _ h

theorem customerKey_inj {t1 t2 : String} (h : customerKey t1 = customerKey t2) : t1 = t2 :=
  append_left_cancel_str _ _ _ h

theorem tokenKey_ne_customerKey (t1 t2 : String) : tokenKey t1 ≠ customerKey t2 := by
  intro h
  simp only [tokenKey, customerKey] at h
  have h2 := congrArg (fun s => s.data.take 12) h
  simp only [String.data_append] at h2
  rw [List.take_append_of_le_length (by decide), List.take_append_of_le_length (by decide)] at h2
  exact absurd h2 (by decide)

theorem customerKey_ne_tokenKey (t1 t2 : String) : customerKey t1 ≠ tokenKey t2 :=
  Ne.symm (tokenKey_ne_customerKey t2 t1)

theorem tokenKey_ne_of_ne {t1 t2 : String} (h : t1 ≠ t2) : tokenKey t1 ≠ tokenKey t2 :=
  fun e => h (tokenKey_inj e)

theorem customerKey_ne_of_ne {t1 t2 : String} (h : t1 ≠ t2) : customerKey t1 ≠ customerKey t2 :=
  fun e => h (customerKey_inj e)

theorem rawGet_cookiesSet_ne (ctx : Ctx) (st : CookieStore) (k k' : String) (v : CookieVal)
    (h : k' ≠ k) : rawGet (cookiesSet ctx st k v) k' = rawGet st k' := by
  cases hw : ctx.hasWindow <;> simp [cookiesSet, hw, rawGet_rawSet_ne st k k' v h]

theorem rawGet_cookiesRemove_ne (ctx : Ctx) (st : CookieStore) (k k' : String)
    (h : k' ≠ k) : rawGet (cookiesRemove ctx st k) k' = rawGet st k' := by
  cases hw : ctx.hasWindow <;> simp [cookiesRemove, hw, rawGet_filter_ne st k k' h, rawRemove]

theorem frame_setAuthToken (ctx : Ctx) (t : String) (tok : String) (st : CookieStore)
    (k : String) (h : k ≠ tokenKey t) : rawGet (setAuthToken ctx t tok st) k = rawGet st k := by
  cases hw : ctx.hasWindow <;>
    simp [setAuthToken, hw, rawGet_cookiesSet_ne _ st (tokenKey t) k _ h]

theorem frame_clearAuthData (ctx : Ctx) (t : String) (st : CookieStore) (k : String)
    (h1 : k ≠ tokenKey t) (h2 : k ≠ customerKey t) :
    rawGet (clearAuthData ctx t st) k = rawGet st k := by
  cases hw : ctx.hasWindow <;>
    simp [clearAuthData, hw, rawGet_cookiesRemove_ne, h1, h2]

theorem frame_interceptError (ctx : Ctx) (t : String) (status : Option Nat) (st : CookieStore)
    (k : String) (h1 : k ≠ tokenKey t) (h2 : k ≠ customerKey t) :
    rawGet (interceptError ctx t status st).1 k = rawGet st k := by
  by_cases hs : status = some 401 <;>
    simp [interceptError, hs, frame_clearAuthData ctx t st k h1 h2]

theorem frame_login (ctx : Ctx) (t : String) (st : CookieStore) (o : NetOutcome AuthBody)
    (k : String) (h1 : k ≠ tokenKey t) (h2 : k ≠ customerKey t) :
    rawGet (login ctx t st o).store k = rawGet st k := by
  match o with
  | .ok body =>
      match htk : body.tokens, hsc : body.success with
      | some tk, true =>
          simp [login, htk, hsc, rawGet_cookiesSet_ne _ _ (customerKey t) k _ h2,
            frame_setAuthToken ctx t _ st k h1]
      | some tk, false => simp [login, htk, hsc]
      | none, true => simp [login, htk, hsc]
      | none, false => simp [login, htk, hsc]
  | .err status msg =>
      simp [login, failWith, frame_interceptError ctx t status st k h1 h2]

theorem frame_registerOp (ctx : Ctx) (t : String) (st : CookieStore) (o : NetOutcome AuthBody)
    (k : String) (h1 : k ≠ tokenKey t) (h2 : k ≠ customerKey t) :
    rawGet (registerOp ctx t st o).store k = rawGet st k := by
  match o with
  | .ok body =>
      match htk : body.tokens, hsc : body.success with
      | some tk, true =>
          simp [registerOp, htk, hsc, rawGet_cookiesSet_ne _ _ (customerKey t) k _ h2,
            frame_setAuthToken ctx t _ st k h1]
      | some tk, false => simp [registerOp, htk, hsc]
      | none, true => simp [registerOp, htk, hsc]
      | none, false => simp [registerOp, htk, hsc]
  | .err status msg =>
      simp [registerOp, failWith, frame_interceptError ctx t status st k h1 h2]

theorem frame_updateProfile (ctx : Ctx) (t : String) (st : CookieStore)
    (o : NetOutcome (ApiResp Customer)) (k : String)
    (h1 : k ≠ tokenKey t) (h2 : k ≠ customerKey t) :
    rawGet (updateProfile ctx t st o).store k = rawGet st k := by
  match o with
  | .ok body =>
      by_cases hsc : body.success <;>
        simp [updateProfile, hsc, rawGet_cookiesSet_ne _ _ (customerKey t) k _ h2]
  | .err status msg =>
      simp [updateProfile, failWith, frame_interceptError ctx t status st k h1 h2]

theorem clearAuthData_win_eq (t : String) (st : CookieStore) :
    clearAuthData ⟨true⟩ t st = rawRemove (rawRemove st (tokenKey t)) (customerKey t) := rfl

theorem clearAuthData_win_token (t : String) (st : CookieStore) :
    rawGet (clearAuthData ⟨true⟩ t st) (tokenKey t) = none := by
  rw [clearAuthData_win_eq,
    rawGet_rawRemove_ne _ (customerKey t) (tokenKey t) (tokenKey_ne_customerKey t t)]
  exact rawGet_rawRemove_self st (tokenKey t)

theorem clearAuthData_win_customer (t : String) (st : CookieStore) :
    rawGet (clearAuthData ⟨true⟩ t st) (customerKey t) = none := by
  rw [clearAuthData_win_eq]
  exact rawGet_rawRemove_self _ (customerKey t)

/-! Claim theorems. -/

/-- C1: for distinct tenants t1 and t2, the cookie keys of the two tenants
are pairwise distinct, the reads of the client of t2 (getAuthToken,
getCurrentCustomer) do not depend on the cookies stored under the keys of
t1, and the cookie writes and deletions of the client of t2 (setAuthToken,
clearAuthData, and the write paths of login, register and updateProfile)
leave the cookies of t1 untouched. -/
theorem tenant_storage_isolation (ctx : Ctx) (t1 t2 : String) (h : t1 ≠ t2) (st : CookieStore) :
    (tokenKey t1 ≠ tokenKey t2 ∧ customerKey t1 ≠ customerKey t2 ∧
      tokenKey t1 ≠ customerKey t2 ∧ customerKey t1 ≠ tokenKey t2) ∧
    (∀ v : CookieVal,
      getAuthToken ctx t2 (rawSet st (tokenKey t1) v) = getAuthToken ctx t2 st ∧
      getAuthToken ctx t2 (rawSet st (customerKey t1) v) = getAuthToken ctx t2 st ∧
      getCurrentCustomer ctx t2 (rawSet st (tokenKey t1) v) = getCurrentCustomer ctx t2 st ∧
      getCurrentCustomer ctx t2 (rawSet st (customerKey t1) v) = getCurrentCustomer ctx t2 st) ∧
    (∀ tok : String,
      rawGet (setAuthToken ctx t2 tok st) (tokenKey t1) = rawGet st (tokenKey t1) ∧
      rawGet (setAuthToken ctx t2 tok st) (customerKey t1) = rawGet st (customerKey t1)) ∧
    (rawGet (clearAuthData ctx t2 st) (tokenKey t1) = rawGet st (tokenKey t1) ∧
      rawGet (clearAuthData ctx t2 st) (customerKey t1) = rawGet st (customerKey t1)) ∧
    (∀ o : NetOutcome AuthBody,
      rawGet (login ctx t2 st o).store (tokenKey t1) = rawGet st (tokenKey t1) ∧
      rawGet (login ctx t2 st o).store (customerKey t1) = rawGet st (customerKey t1) ∧
      rawGet (registerOp ctx t2 st o).store (tokenKey t1) = rawGet st (tokenKey t1) ∧
      rawGet (registerOp ctx t2 st o).store (customerKey t1) = rawGet st (customerKey t1)) ∧
    (∀ o : NetOutcome (ApiResp Customer),
      rawGet (updateProfile ctx t2 st o).store (tokenKey t1) = rawGet st (tokenKey t1) ∧
      rawGet (updateProfile ctx t2 st o).store (customerKey t1) = rawGet st (customerKey t1)) := by
  have htt : tokenKey t1 ≠ tokenKey t2 := tokenKey_ne_of_ne h
  have hcc : customerKey t1 ≠ customerKey t2 := customerKey_ne_of_ne h
  have htc : tokenKey t1 ≠ customerKey t2 := tokenKey_ne_customerKey t1 t2
  have hct : customerKey t1 ≠ tokenKey t2 := customerKey_ne_tokenKey t1 t2
  have htt2 : tokenKey t2 ≠ tokenKey t1 := Ne.symm htt
  have hcc2 : customerKey t2 ≠ customerKey t1 := Ne.symm hcc
  have htc2 : tokenKey t2 ≠ customerKey t1 := tokenKey_ne_customerKey t2 t1
  have hct2 : customerKey t2 ≠ tokenKey t1 := customerKey_ne_tokenKey t2 t1
  refine ⟨⟨htt, hcc, htc, hct⟩, ?_, ?_, ?_, ?_, ?_⟩
  · intro v
    refine ⟨?_, ?_, ?_, ?_⟩ <;>
      cases hw : ctx.hasWindow <;>
        simp [getAuthToken, getCurrentCustomer, cookiesGet, hw,
          rawGet_rawSet_ne st (tokenKey t1) (tokenKey t2) v htt2,
          rawGet_rawSet_ne st (customerKey t1) (tokenKey t2) v htc2,
          rawGet_rawSet_ne st (tokenKey t1) (customerKey t2) v hct2,
          rawGet_rawSet_ne st (customerKey t1) (customerKey t2) v hcc2]
  · intro tok
    exact ⟨frame_setAuthToken ctx t2 tok st (tokenKey t1) htt,
      frame_setAuthToken ctx t2 tok st (customerKey t1) hct⟩
  · exact ⟨frame_clearAuthData ctx t2 st (tokenKey t1) htt htc,
      frame_clearAuthData ctx t2 st (customerKey t1) hct hcc⟩
  · intro o
    exact ⟨frame_login ctx t2 st o (tokenKey t1) htt htc,
      frame_login ctx t2 st o (customerKey t1) hct hcc,
      frame_registerOp ctx t2 st o (tokenKey t1) htt htc,
      frame_registerOp ctx t2 st o (customerKey t1) hct hcc⟩
  · intro o
    exact ⟨frame_updateProfile ctx t2 st o (tokenKey t1) htt htc,
      frame_updateProfile ctx t2 st o (customerKey t1) hct hcc⟩

/-- Witness for C1 at the concrete tenants acme and demo. -/
theorem tenant_storage_isolation_witness :
    tokenKey "acme" ≠ tokenKey "demo" ∧
    getAuthToken ⟨true⟩ "demo" (rawSet [] (tokenKey "acme") (.str "t1")) =
      getAuthToken ⟨true⟩ "demo" [] ∧
    rawGet (setAuthToken ⟨true⟩ "demo" "tok" []) (tokenKey "acme") =
      rawGet ([] : CookieStore) (tokenKey "acme") :=
  ⟨(tenant_storage_isolation ⟨true⟩ "acme" "demo" (by decide) []).1.1,
    ((tenant_storage_isolation ⟨true⟩ "acme" "demo" (by decide) []).2.1 (.str "t1")).1,
    ((tenant_storage_isolation ⟨true⟩ "acme" "demo" (by decide) []).2.2.1 "tok").1⟩

/-- C2 counterexample: with the demo token cookie present but holding the
empty string and a parseable customer cookie, the token cookie is present
and getCurrentCustomer returns a customer, yet isAuthenticated is false
(the double negation in the source treats the empty cookie as falsy). -/
theorem isAuthenticated_empty_token_counterexample :
    (getAuthToken ⟨true⟩ "demo"
        [(tokenKey "demo", .str ""), (customerKey "demo", .customerJson sampleCustomer)]).isSome
      = true ∧
    getCurrentCustomer ⟨true⟩ "demo"
        [(tokenKey "demo", .str ""), (customerKey "demo", .customerJson sampleCustomer)] =
      some sampleCustomer ∧
    isAuthenticated ⟨true⟩ "demo"
        [(tokenKey "demo", .str ""), (customerKey "demo", .customerJson sampleCustomer)] =
      false := by
  exact ⟨by decide, by decide, by decide⟩

/-- C2 (amended): in the browser, isAuthenticated is true exactly when the
token cookie is present with a truthy (non-empty) value and
getCurrentCustomer returns a customer; in every other combination it is
false. -/
theorem isAuthenticated_iff (tenant : String) (st : CookieStore) :
    isAuthenticated ⟨true⟩ tenant st = true ↔
      ((∃ v, rawGet st (tokenKey tenant) = some v ∧ v.truthy = true) ∧
        getCurrentCustomer ⟨true⟩ tenant st ≠ none) := by
  have hg : getAuthToken ⟨true⟩ tenant st = rawGet st (tokenKey tenant) := rfl
  simp only [isAuthenticated, hg, Bool.and_eq_true]
  constructor
  · rintro ⟨h1, h2⟩
    refine ⟨?_, ?_⟩
    · cases hv : rawGet st (tokenKey tenant) with
      | none => rw [hv] at h1; exact absurd h1 (by decide)
      | some v => rw [hv] at h1; exact ⟨v, rfl, h1⟩
    · intro hn
      rw [hn] at h2
      exact absurd h2 (by decide)
  · rintro ⟨⟨v, hv, htr⟩, hcc⟩
    constructor
    · rw [hv]
      exact htr
    · cases hc : getCurrentCustomer ⟨true⟩ tenant st with
      | none => exact absurd hc hcc
      | some c => simp [Option.isSome]

/-- C3: a fulfilled login whose body follows the documented response
envelope (success true, customer and tokens nested under data, no
top-level tokens field) persists nothing, because the persistence branch
tests the top-level tokens field: the cookie jar stays empty and an
immediate getCurrentCustomer returns none instead of the customer of the
response. -/
theorem login_documented_envelope_no_persist :
    (login ⟨true⟩ "demo" []
        (.ok ⟨true, some ⟨sampleCustomer, ⟨"tok"⟩⟩, none, none, none⟩)).store = [] ∧
    getCurrentCustomer ⟨true⟩ "demo"
        (login ⟨true⟩ "demo" []
          (.ok ⟨true, some ⟨sampleCustomer, ⟨"tok"⟩⟩, none, none, none⟩)).store = none ∧
    (login ⟨true⟩ "demo" []
        (.ok ⟨true, some ⟨sampleCustomer, ⟨"tok"⟩⟩, none, none, none⟩)).result =
      .ok ⟨true, some ⟨sampleCustomer, ⟨"tok"⟩⟩, none, none, none⟩ := by
  exact ⟨rfl, rfl, rfl⟩

/-- C4: in the browser, a 401 response makes the interceptor clear both
tenant cookies and navigate exactly once to the tenant login page; any
other rejected status leaves the jar untouched and navigates nowhere; the
error paths of the authenticated operations route through the interceptor
and their fulfilled responses never navigate. -/
theorem interceptor_401_behavior (tenant : String) (st : CookieStore) :
    (rawGet (interceptError ⟨true⟩ tenant (some 401) st).1 (tokenKey tenant) = none ∧
      rawGet (interceptError ⟨true⟩ tenant (some 401) st).1 (customerKey tenant) = none ∧
      (interceptError ⟨true⟩ tenant (some 401) st).2 = [loginUrl tenant]) ∧
    (∀ status : Option Nat,
      interceptError ⟨true⟩ tenant status st =
        if status = some 401 then (clearAuthData ⟨true⟩ tenant st, [loginUrl tenant])
        else (st, [])) ∧
    (∀ status msg,
      (getDashboard (β := Unit) ⟨true⟩ tenant st (.err status msg)).store =
          (interceptError ⟨true⟩ tenant status st).1 ∧
      (getDashboard (β := Unit) ⟨true⟩ tenant st (.err status msg)).navs =
          (interceptError ⟨true⟩ tenant status st).2 ∧
      (getProfile ⟨true⟩ tenant st (.err status msg)).store =
          (interceptError ⟨true⟩ tenant status st).1 ∧
      (getProfile ⟨true⟩ tenant st (.err status msg)).navs =
          (interceptError ⟨true⟩ tenant status st).2 ∧
      (updateProfile ⟨true⟩ tenant st (.err status msg)).store =
          (interceptError ⟨true⟩ tenant status st).1 ∧
      (updateProfile ⟨true⟩ tenant st (.err status msg)).navs =
          (interceptError ⟨true⟩ tenant status st).2 ∧
      (getServiceRequests ⟨true⟩ tenant st (.err status msg)).store =
          (interceptError ⟨true⟩ tenant status st).1 ∧
      (getServiceRequests ⟨true⟩ tenant st (.err status msg)).navs =
          (interceptError ⟨true⟩ tenant status st).2 ∧
      (getServiceRequest ⟨true⟩ tenant "r1" st (.err status msg)).store =
          (interceptError ⟨true⟩ tenant status st).1 ∧
      (getServiceRequest ⟨true⟩ tenant "r1" st (.err status msg)).navs =
          (interceptError ⟨true⟩ tenant status st).2 ∧
      (createServiceRequest (β := Unit) ⟨true⟩ tenant st (.err status msg)).store =
          (interceptError ⟨true⟩ tenant status st).1 ∧
      (createServiceRequest (β := Unit) ⟨true⟩ tenant st (.err status msg)).navs =
          (interceptError ⟨true⟩ tenant status st).2 ∧
      (addComment (β := Unit) ⟨true⟩ tenant "r1" "hi" st (.err status msg)).store =
          (interceptError ⟨true⟩ tenant status st).1 ∧
      (addComment (β := Unit) ⟨true⟩ tenant "r1" "hi" st (.err status msg)).navs =
          (interceptError ⟨true⟩ tenant status st).2) ∧
    (∀ body : ApiResp Customer,
      (getProfile ⟨true⟩ tenant st (.ok body)).navs = [] ∧
      (updateProfile ⟨true⟩ tenant st (.ok body)).navs = []) := by
  refine ⟨⟨?_, ?_, rfl⟩, ?_, ?_, ?_⟩
  · have he : (interceptError ⟨true⟩ tenant (some 401) st).1 = clearAuthData ⟨true⟩ tenant st :=
      rfl
    rw [he]
    exact clearAuthData_win_token tenant st
  · have he : (interceptError ⟨true⟩ tenant (some 401) st).1 = clearAuthData ⟨true⟩ tenant st :=
      rfl
    rw [he]
    exact clearAuthData_win_customer tenant st
  · intro status
    by_cases hs : status = some 401 <;> simp [interceptError, hs]
  · intro status msg
    exact ⟨rfl, rfl, rfl, rfl, rfl, rfl, rfl, rfl, rfl, rfl, rfl, rfl, rfl, rfl⟩
  · intro body
    by_cases hsc : body.success = true <;> simp [getProfile, runPlain, updateProfile, hsc]

/-- C5: the edge filter maps the host utility1.accesswash.org to tenant
utility1 whatever the path, the local host with path /acme/portal/dashboard
to acme, and the bare path to demo; the useTenant resolver prefers a
truthy tenant route parameter, falls back to the first path segment, and
defaults to demo when that segment is empty. -/
theorem tenant_resolution :
    (∀ p, middlewareTenant "utility1.accesswash.org" p = "utility1") ∧
    middlewareTenant "localhost:3000" "/acme/portal/dashboard" = "acme" ∧
    middlewareTenant "localhost:3000" "/" = "demo" ∧
    useTenant none "/" = "demo" ∧
    (∀ t p, t ≠ "" → useTenant (some t) p = t) ∧
    (∀ p, (jsSplit '/' p).getD 1 "" ≠ "" → useTenant none p = (jsSplit '/' p).getD 1 "") ∧
    (∀ p, (jsSplit '/' p).getD 1 "" = "" → useTenant none p = "demo") := by
  refine ⟨fun p => rfl, by decide, by decide, by decide, ?_, ?_, ?_⟩
  · intro t p ht
    simp [useTenant, ht]
  · intro p hp
    have h2 : useTenant none p =
        if (jsSplit '/' p).getD 1 "" = "" then "demo" else (jsSplit '/' p).getD 1 "" := rfl
    rw [h2, if_neg hp]
  · intro p hp
    have h2 : useTenant none p =
        if (jsSplit '/' p).getD 1 "" = "" then "demo" else (jsSplit '/' p).getD 1 "" := rfl
    rw [h2, if_pos hp]

/-- Witness for C5: the resolver preference and fallback at concrete
inputs. -/
theorem tenant_resolution_witness :
    useTenant (some "acme") "/x/y" = "acme" ∧
    useTenant none "/acme/portal" = (jsSplit '/' "/acme/portal").getD 1 "" ∧
    useTenant none "//portal" = "demo" :=
  ⟨tenant_resolution.2.2.2.2.1 "acme" "/x/y" (by decide),
    tenant_resolution.2.2.2.2.2.1 "/acme/portal" (by decide),
    tenant_resolution.2.2.2.2.2.2 "//portal" (by decide)⟩

/-- C6 counterexample: a failing forgotPassword invoked from an
authenticated state keeps the customer and the authenticated flag, because
its catch branch only sets error and loading; the claim says the store
transitions to unauthenticated with customer null. -/
theorem forgotPassword_failure_keeps_customer :
    (storeForgotPassword (β := Unit) ⟨true⟩ "demo"
        ⟨some sampleCustomer, false, none, true⟩ [] (.err none none)).state.customer =
      some sampleCustomer ∧
    (storeForgotPassword (β := Unit) ⟨true⟩ "demo"
        ⟨some sampleCustomer, false, none, true⟩ [] (.err none none)).state.isAuthenticated =
      true ∧
    (storeForgotPassword (β := Unit) ⟨true⟩ "demo"
        ⟨some sampleCustomer, false, none, true⟩ [] (.err none none)).state.error =
      some "Failed to send reset email" := by
  exact ⟨rfl, rfl, rfl⟩

/-- C6 (amended): when the API client reports failure, login and register
transition to unauthenticated(error) with loading false and customer null,
while forgotPassword only sets loading false and the error, leaving
customer and isAuthenticated unchanged; the stored error message is the
backend message when present and non-empty (truthy) and the default
string of the action otherwise; the error is kept by
loadCustomerFromStorage and cleared by clearError. -/
theorem auth_store_failure_transitions (ctx : Ctx) (tenant : String) (s0 : AuthState)
    (cs : CookieStore) :
    (∀ (status : Option Nat) (m : String), m ≠ "" →
      (storeLogin ctx tenant s0 cs (.err status (some m))).state =
        ⟨none, false, some m, false⟩) ∧
    (∀ status : Option Nat,
      (storeLogin ctx tenant s0 cs (.err status none)).state =
        ⟨none, false, some "Login failed", false⟩ ∧
      (storeLogin ctx tenant s0 cs (.err status (some ""))).state =
        ⟨none, false, some "Login failed", false⟩) ∧
    (∀ d tk c (m : String), m ≠ "" →
      (storeLogin ctx tenant s0 cs (.ok ⟨false, d, some m, tk, c⟩)).state =
        ⟨none, false, some m, false⟩) ∧
    (∀ d tk c,
      (storeLogin ctx tenant s0 cs (.ok ⟨false, d, none, tk, c⟩)).state =
        ⟨none, false, some "Login failed", false⟩ ∧
      (storeLogin ctx tenant s0 cs (.ok ⟨false, d, some "", tk, c⟩)).state =
        ⟨none, false, some "Login failed", false⟩) ∧
    (∀ (status : Option Nat) (m : String), m ≠ "" →
      (storeRegister ctx tenant s0 cs (.err status (some m))).state =
        ⟨none, false, some m, false⟩) ∧
    (∀ status : Option Nat,
      (storeRegister ctx tenant s0 cs (.err status none)).state =
        ⟨none, false, some "Registration failed", false⟩ ∧
      (storeRegister ctx tenant s0 cs (.err status (some ""))).state =
        ⟨none, false, some "Registration failed", false⟩) ∧
    (∀ d tk c (m : String), m ≠ "" →
      (storeRegister ctx tenant s0 cs (.ok ⟨false, d, some m, tk, c⟩)).state =
        ⟨none, false, some m, false⟩) ∧
    (∀ d tk c,
      (storeRegister ctx tenant s0 cs (.ok ⟨false, d, none, tk, c⟩)).state =
        ⟨none, false, some "Registration failed", false⟩ ∧
      (storeRegister ctx tenant s0 cs (.ok ⟨false, d, some "", tk, c⟩)).state =
        ⟨none, false, some "Registration failed", false⟩) ∧
    (∀ (status : Option Nat) (m : String), m ≠ "" →
      (storeForgotPassword (β := Unit) ctx tenant s0 cs (.err status (some m))).state =
        { s0 with loading := false, error := some m }) ∧
    (∀ status : Option Nat,
      (storeForgotPassword (β := Unit) ctx tenant s0 cs (.err status none)).state =
        { s0 with loading := false, error := some "Failed to send reset email" } ∧
      (storeForgotPassword (β := Unit) ctx tenant s0 cs (.err status (some ""))).state =
        { s0 with loading := false, error := some "Failed to send reset email" }) ∧
    (∀ cs2, (storeLoadFromStorage ctx tenant s0 cs2).error = s0.error) ∧
    storeClearError s0 = { s0 with error := none } := by
  refine ⟨?_, fun status => ⟨rfl, rfl⟩, ?_, ?_, ?_, fun status => ⟨rfl, rfl⟩, ?_, ?_, ?_,
    fun status => ⟨rfl, rfl⟩, fun cs2 => rfl, rfl⟩
  · intro status m h
    have hb : (m == "") = false := beq_eq_false_iff_ne.mpr h
    simp [storeLogin, login, failWith, jsOrStr, hb, failedAuthState]
  · intro d tk c m h
    have hb : (m == "") = false := beq_eq_false_iff_ne.mpr h
    cases tk <;> simp [storeLogin, login, failWith, jsOrStr, hb, failedAuthState]
  · intro d tk c
    cases tk <;> exact ⟨rfl, rfl⟩
  · intro status m h
    have hb : (m == "") = false := beq_eq_false_iff_ne.mpr h
    simp [storeRegister, registerOp, failWith, jsOrStr, hb, failedAuthState]
  · intro d tk c m h
    have hb : (m == "") = false := beq_eq_false_iff_ne.mpr h
    cases tk <;> simp [storeRegister, registerOp, failWith, jsOrStr, hb, failedAuthState]
  · intro d tk c
    cases tk <;> exact ⟨rfl, rfl⟩
  · intro status m h
    have hb : (m == "") = false := beq_eq_false_iff_ne.mpr h
    simp [storeForgotPassword, forgotPassword, runPlain, failWith, jsOrStr, hb]

/-- Witness for C6 at concrete failing outcomes with a truthy backend
message. -/
theorem auth_store_failure_transitions_witness :
    (storeLogin ⟨true⟩ "demo" initialAuthState [] (.err (some 500) (some "boom"))).state =
      ⟨none, false, some "boom", false⟩ ∧
    (storeForgotPassword (β := Unit) ⟨true⟩ "demo" initialAuthState []
        (.err none (some "oops"))).state =
      { initialAuthState with loading := false, error := some "oops" } :=
  ⟨(auth_store_failure_transitions ⟨true⟩ "demo" initialAuthState []).1 (some 500) "boom"
      (by decide),
    (auth_store_failure_transitions ⟨true⟩ "demo" initialAuthState []).2.2.2.2.2.2.2.2.1 none
      "oops" (by decide)⟩

/-- C7: for any tenant, state and network outcomes, each of two successive
logout actions ends in the unauthenticated state with no error (the model
of logout returns no thrown error at all), and in the browser both tenant
cookies are cleared by every logout call. -/
theorem logout_idempotent (ctx : Ctx) (tenant : String) (s : AuthState) (cs : CookieStore)
    (o1 o2 : NetOutcome Unit) :
    (storeLogout ctx tenant s cs o1).1 = ⟨none, false, none, false⟩ ∧
    (storeLogout ctx tenant (storeLogout ctx tenant s cs o1).1
        (storeLogout ctx tenant s cs o1).2.1 o2).1 = ⟨none, false, none, false⟩ ∧
    (∀ (s0 : AuthState) (cs0 : CookieStore) (o : NetOutcome Unit),
      rawGet (storeLogout ⟨true⟩ tenant s0 cs0 o).2.1 (tokenKey tenant) = none ∧
      rawGet (storeLogout ⟨true⟩ tenant s0 cs0 o).2.1 (customerKey tenant) = none) := by
  refine ⟨rfl, rfl, ?_⟩
  intro s0 cs0 o
  cases o with
  | ok b =>
      exact ⟨clearAuthData_win_token tenant cs0, clearAuthData_win_customer tenant cs0⟩
  | err status msg =>
      exact ⟨clearAuthData_win_token tenant _, clearAuthData_win_customer tenant _⟩

/-- C8 counterexample: with a cached customer snapshot for demo, a failing
updateProfile with status 401 clears the snapshot through the interceptor,
while the claim says every failure leaves it untouched. -/
theorem updateProfile_401_clears_snapshot :
    rawGet ([(customerKey "demo", CookieVal.customerJson sampleCustomer)] : CookieStore)
        (customerKey "demo") = some (.customerJson sampleCustomer) ∧
    (updateProfile ⟨true⟩ "demo" [(customerKey "demo", .customerJson sampleCustomer)]
        (.err (some 401) none)).result = .error ⟨"Failed to update profile"⟩ ∧
    rawGet (updateProfile ⟨true⟩ "demo" [(customerKey "demo", .customerJson sampleCustomer)]
        (.err (some 401) none)).store (customerKey "demo") = none := by
  exact ⟨by decide, rfl, by decide⟩

/-- C8 (amended): in the browser, a fulfilled updateProfile reporting
success replaces the cached snapshot with the returned data; a fulfilled
response reporting failure leaves it unchanged; a rejected request leaves
it unchanged unless its status is 401, in which case the interceptor
clears it. -/
theorem updateProfile_snapshot (tenant : String) (st : CookieStore) :
    (∀ c m, rawGet (updateProfile ⟨true⟩ tenant st (.ok ⟨true, some c, m⟩)).store
        (customerKey tenant) = some (.customerJson c)) ∧
    (∀ d m, rawGet (updateProfile ⟨true⟩ tenant st (.ok ⟨false, d, m⟩)).store
        (customerKey tenant) = rawGet st (customerKey tenant)) ∧
    (∀ status msg,
      rawGet (updateProfile ⟨true⟩ tenant st (.err status msg)).store (customerKey tenant) =
        if status = some 401 then none else rawGet st (customerKey tenant)) := by
  refine ⟨?_, fun d m => rfl, ?_⟩
  · intro c m
    have he : (updateProfile ⟨true⟩ tenant st (.ok ⟨true, some c, m⟩)).store =
        rawSet st (customerKey tenant) (.customerJson c) := rfl
    rw [he]
    exact rawGet_rawSet_self st (customerKey tenant) (.customerJson c)
  · intro status msg
    by_cases hs : status = some 401
    · subst hs
      have he : (updateProfile ⟨true⟩ tenant st (.err (some 401) msg)).store =
          clearAuthData ⟨true⟩ tenant st := rfl
      rw [he, if_pos rfl]
      exact clearAuthData_win_customer tenant st
    · have he : (updateProfile ⟨true⟩ tenant st (.err status msg)).store =
          (interceptError ⟨true⟩ tenant status st).1 := rfl
      rw [he, if_neg hs]
      simp [interceptError, hs]

/-- C9 counterexample: a rejected getProfile whose backend message is
present but empty surfaces the default string Failed to load profile, not
the present backend message, because the catch uses JavaScript truthy-or;
the claim says the normalized error carries the backend message whenever
it is present. -/
theorem normalized_errors_empty_message_counterexample :
    (getProfile ⟨true⟩ "demo" [] (.err (some 500) (some ""))).result =
      .error ⟨"Failed to load profile"⟩ ∧
    (⟨"Failed to load profile"⟩ : ApiError) ≠ ⟨""⟩ :=
  ⟨rfl, by decide⟩

/-- C9 (amended): every rejected request of each of the ten public
operations, including transport failures and the 10-second timeout
(status none), surfaces as the single normalized error shape whose message
is the backend message when present and non-empty (truthy) and the fixed
default string of the operation otherwise. -/
theorem normalized_errors_truthy (ctx : Ctx) (tenant : String) (st : CookieStore)
    (status : Option Nat) :
    (∀ m : String, m ≠ "" →
      (login ctx tenant st (.err status (some m))).result = .error ⟨m⟩ ∧
      (registerOp ctx tenant st (.err status (some m))).result = .error ⟨m⟩ ∧
      (forgotPassword (β := Unit) ctx tenant st (.err status (some m))).result = .error ⟨m⟩ ∧
      (getDashboard (β := Unit) ctx tenant st (.err status (some m))).result = .error ⟨m⟩ ∧
      (getProfile ctx tenant st (.err status (some m))).result = .error ⟨m⟩ ∧
      (updateProfile ctx tenant st (.err status (some m))).result = .error ⟨m⟩ ∧
      (getServiceRequests ctx tenant st (.err status (some m))).result = .error ⟨m⟩ ∧
      (getServiceRequest ctx tenant "r1" st (.err status (some m))).result = .error ⟨m⟩ ∧
      (createServiceRequest (β := Unit) ctx tenant st (.err status (some m))).result =
        .error ⟨m⟩ ∧
      (addComment (β := Unit) ctx tenant "r1" "hi" st (.err status (some m))).result =
        .error ⟨m⟩) ∧
    (∀ msg : Option String, msg = none ∨ msg = some "" →
      (login ctx tenant st (.err status msg)).result = .error ⟨"Login failed"⟩ ∧
      (registerOp ctx tenant st (.err status msg)).result =
        .error ⟨"Registration failed"⟩ ∧
      (forgotPassword (β := Unit) ctx tenant st (.err status msg)).result =
        .error ⟨"Failed to send reset email"⟩ ∧
      (getDashboard (β := Unit) ctx tenant st (.err status msg)).result =
        .error ⟨"Failed to load dashboard"⟩ ∧
      (getProfile ctx tenant st (.err status msg)).result =
        .error ⟨"Failed to load profile"⟩ ∧
      (updateProfile ctx tenant st (.err status msg)).result =
        .error ⟨"Failed to update profile"⟩ ∧
      (getServiceRequests ctx tenant st (.err status msg)).result =
        .error ⟨"Failed to load service requests"⟩ ∧
      (getServiceRequest ctx tenant "r1" st (.err status msg)).result =
        .error ⟨"Failed to load service request"⟩ ∧
      (createServiceRequest (β := Unit) ctx tenant st (.err status msg)).result =
        .error ⟨"Failed to create service request"⟩ ∧
      (addComment (β := Unit) ctx tenant "r1" "hi" st (.err status msg)).result =
        .error ⟨"Failed to add comment"⟩) := by
  constructor
  · intro m h
    have hb : (m == "") = false := beq_eq_false_iff_ne.mpr h
    refine ⟨?_, ?_, ?_, ?_, ?_, ?_, ?_, ?_, ?_, ?_⟩ <;>
      simp [login, registerOp, forgotPassword, getDashboard, getProfile, updateProfile,
        getServiceRequests, getServiceRequest, createServiceRequest, addComment, runPlain,
        failWith, jsOrStr, hb]
  · rintro msg (rfl | rfl) <;> exact ⟨rfl, rfl, rfl, rfl, rfl, rfl, rfl, rfl, rfl, rfl⟩

/-- Witness for C9 at a concrete truthy backend message and at a concrete
empty one. -/
theorem normalized_errors_truthy_witness :
    (login ⟨true⟩ "demo" [] (.err (some 500) (some "boom"))).result = .error ⟨"boom"⟩ ∧
    (login ⟨true⟩ "demo" [] (.err none (some ""))).result = .error ⟨"Login failed"⟩ :=
  ⟨((normalized_errors_truthy ⟨true⟩ "demo" [] (some 500)).1 "boom" (by decide)).1,
    ((normalized_errors_truthy ⟨true⟩ "demo" [] none).2 (some "") (Or.inr rfl)).1⟩

/-- C10: outside the browser, getAuthToken and getCurrentCustomer read
nothing, isAuthenticated is false, setAuthToken and clearAuthData leave
the jar untouched, and the interceptor navigates nowhere and changes
nothing, for every tenant and jar. -/
theorem server_side_noops (tenant : String) (st : CookieStore) :
    getAuthToken ⟨false⟩ tenant st = none ∧
    getCurrentCustomer ⟨false⟩ tenant st = none ∧
    isAuthenticated ⟨false⟩ tenant st = false ∧
    (∀ tok, setAuthToken ⟨false⟩ tenant tok st = st) ∧
    clearAuthData ⟨false⟩ tenant st = st ∧
    (∀ status : Option Nat,
      (interceptError ⟨false⟩ tenant status st).1 = st ∧
      (interceptError ⟨false⟩ tenant status st).2 = []) := by
  refine ⟨rfl, rfl, rfl, fun tok => rfl, rfl, ?_⟩
  intro status
  by_cases hs : status = some 401 <;> simp [interceptError, hs, clearAuthData]

end AccessWash
